import Mathlib

/-!
Shallow embedding of `src/player/offscreen.canvas.render.ts` from
SVGAPlayer-Web-Lite.  The renderer walks all sprites of a `VideoEntity`
for one frame index and issues 2D-canvas calls.  Here every canvas call is
recorded as a `CanvasOp` and each source function becomes a pure Lean
function returning the list of ops it would issue, in order.  Numbers are
modelled as `ℚ`; JavaScript's `x || d` idiom on possibly-undefined numeric
and string fields is modelled by explicit helpers on `Option`.
-/

namespace Svga

/-- A decoded bitmap handle held in the `bitmapCache` (`ImageSources`).
Only identity matters for the call trace. -/
structure Bitmap where
  id : Nat
deriving DecidableEq, Repr

/-- The six optional numeric fields of a protobuf `Transform`. -/
structure Transform where
  a : Option ℚ
  b : Option ℚ
  c : Option ℚ
  d : Option ℚ
  tx : Option ℚ
  ty : Option ℚ
deriving DecidableEq, Repr

/-- A frame's layout rectangle. -/
structure Layout where
  x : ℚ
  y : ℚ
  width : ℚ
  height : ℚ
deriving DecidableEq, Repr

/-- JavaScript `v || dflt` on a possibly-undefined number: an absent or
zero (falsy) value yields the default, any other value passes through. -/
def jsOr (v : Option ℚ) (dflt : ℚ) : ℚ :=
  match v with
  | none => dflt
  | some x => if x = 0 then dflt else x

/-- JavaScript `v || dflt` on a possibly-undefined string: absent or empty
(falsy) yields the default. -/
def jsOrStr (v : Option String) (dflt : String) : String :=
  match v with
  | none => dflt
  | some s => if s = "" then dflt else s

/-- JavaScript `v || undefined` on a possibly-undefined number
(used for `styles.strokeWidth || undefined` etc.). -/
def jsOrUndef (v : Option ℚ) : Option ℚ :=
  match v with
  | none => none
  | some x => if x = 0 then none else some x

/-- JavaScript `v || undefined` on a possibly-undefined string. -/
def jsOrUndefStr (v : Option String) : Option String :=
  match v with
  | none => none
  | some s => if s = "" then none else some s

/-- JavaScript truthiness of a possibly-undefined string. -/
def strTruthy (v : Option String) : Bool :=
  match v with
  | none => false
  | some s => !(s == "")

/-- JavaScript truthiness of a possibly-undefined number. -/
def numTruthy (v : Option ℚ) : Bool :=
  match v with
  | none => false
  | some x => !(x == 0)

/-- JavaScript `v ? v : 0` on a possibly-undefined number
(used in the `setLineDash` argument list). -/
def ternNum (v : Option ℚ) : ℚ :=
  match v with
  | none => 0
  | some x => if x = 0 then 0 else x

/-- `IParseStyles` (from `../parser`, not part of the rendered sources).
Modelled from the spec: "fill color or none, stroke color or none,
strokeWidth, cap, join, miterLimit, up to three dash-segment lengths";
`fill`/`stroke` carry the color (truthy when present and non-empty), the
`...Str` fields are the canvas-ready strings the renderer assigns. -/
structure ParseStyles where
  fill : Option String
  stroke : Option String
  strokeStr : Option String
  fillStr : Option String
  strokeWidth : Option ℚ
  lineCapStr : Option String
  lineJoinStr : Option String
  miterLimit : Option ℚ
  lineDashI : Option ℚ
  lineDashII : Option ℚ
  lineDashIII : Option ℚ
deriving DecidableEq, Repr

/-- One canvas-context call (or property assignment) issued by the
renderer, with its arguments. -/
inductive CanvasOp where
  | save
  | restore
  | setGlobalAlpha (a : ℚ)
  | transform (a b c d tx ty : ℚ)
  | clip
  | drawImageOrigin (img : Bitmap)
  | drawImagePos (srcId : Nat) (x y : ℚ)
  | drawImageRect (srcId : Nat) (x y w h : ℚ)
  | beginPath
  | moveTo (x y : ℚ)
  | lineTo (x y : ℚ)
  | bezierCurveTo (x1 y1 x2 y2 x y : ℚ)
  | quadraticCurveTo (x1 y1 x y : ℚ)
  | closePath
  | arcTo (x1 y1 x2 y2 r : ℚ)
  | fill
  | stroke
  | setStrokeStyle (s : String)
  | setLineWidth (v : Option ℚ)
  | setLineCap (v : Option String)
  | setLineJoin (v : Option String)
  | setMiterLimit (v : Option ℚ)
  | setFillStyle (s : String)
  | setLineDash (d1 d2 d3 : ℚ)
deriving DecidableEq, Repr

/-- `const validMethods = 'MLHVCSQRZmlhvcsqrz'`. -/
def validMethods : String := "MLHVCSQRZmlhvcsqrz"

/-- The mutable `currentPoint` record threaded through path parsing. -/
structure CurrentPoint where
  x : ℚ
  y : ℚ
  x1 : ℚ
  y1 : ℚ
  x2 : ℚ
  y2 : ℚ
deriving DecidableEq, Repr

/-- Digit value of a character, when it is a decimal digit. -/
def charDigit (c : Char) : Option Nat :=
  if '0' ≤ c ∧ c ≤ '9' then some (c.toNat - '0'.toNat) else none

/-- Value of a non-empty all-digit character list. -/
def digitsToNat (cs : List Char) : Option Nat :=
  match cs with
  | [] => none
  | _ =>
    cs.foldl
      (fun acc c =>
        match acc, charDigit c with
        | some a, some d => some (a * 10 + d)
        | _, _ => none)
      (some 0)

/-- Parse an unsigned decimal literal `digits[.digits]` (either part may be
empty but not both), as JavaScript `Number` accepts for the plain decimal
tokens produced by the path tokenizer. -/
def parseUnsigned (cs : List Char) : Option ℚ :=
  let intPart := cs.takeWhile (fun c => (charDigit c).isSome)
  let rest := cs.dropWhile (fun c => (charDigit c).isSome)
  match rest with
  | [] => (digitsToNat intPart).map (fun n => (n : ℚ))
  | '.' :: frac =>
    if frac.all (fun c => (charDigit c).isSome) ∧ (intPart ≠ [] ∨ frac ≠ []) then
      match digitsToNat intPart, digitsToNat frac with
      | some i, some f => some ((i : ℚ) + (f : ℚ) / (10 : ℚ) ^ frac.length)
      | some i, none => some (i : ℚ)
      | none, some f => some ((f : ℚ) / (10 : ℚ) ^ frac.length)
      | none, none => none
    else none
  | _ => none

/-- JavaScript `Number(s)` on the tokens the path tokenizer produces:
`""` is 0, a plain decimal literal (optionally signed) is its value.
Tokens that `Number` would map to `NaN` are modelled as 0 (`NaN` is falsy,
as 0 is, and such tokens produce no meaningful geometry either way). -/
def jsNumber (s : String) : ℚ :=
  match s.data with
  | [] => 0
  | '-' :: rest =>
    match parseUnsigned rest with
    | some v => -v
    | none => 0
  | cs =>
    match parseUnsigned cs with
    | some v => v
    | none => 0

/-- `Number(args[i])`: an out-of-range access yields `undefined`, hence
`NaN`, modelled as 0 like every other non-numeric token. -/
def argNum (args : List String) (i : Nat) : ℚ :=
  jsNumber ((args.get? i).getD "")

/-- `drawBezierElement(context, currentPoint, method, args)`: one path
command updates the current point and issues path-construction calls. -/
def drawBezierElement (cp : CurrentPoint) (method : Char) (args : List String) :
    CurrentPoint × List CanvasOp :=
  match method with
  | 'M' =>
    let x := argNum args 0
    let y := argNum args 1
    ({ cp with x := x, y := y }, [.moveTo x y])
  | 'm' =>
    let x := cp.x + argNum args 0
    let y := cp.y + argNum args 1
    ({ cp with x := x, y := y }, [.moveTo x y])
  | 'L' =>
    let x := argNum args 0
    let y := argNum args 1
    ({ cp with x := x, y := y }, [.lineTo x y])
  | 'l' =>
    let x := cp.x + argNum args 0
    let y := cp.y + argNum args 1
    ({ cp with x := x, y := y }, [.lineTo x y])
  | 'H' =>
    let x := argNum args 0
    ({ cp with x := x }, [.lineTo x cp.y])
  | 'h' =>
    let x := cp.x + argNum args 0
    ({ cp with x := x }, [.lineTo x cp.y])
  | 'V' =>
    let y := argNum args 0
    ({ cp with y := y }, [.lineTo cp.x y])
  | 'v' =>
    let y := cp.y + argNum args 0
    ({ cp with y := y }, [.lineTo cp.x y])
  | 'C' =>
    let x1 := argNum args 0
    let y1 := argNum args 1
    let x2 := argNum args 2
    let y2 := argNum args 3
    let x := argNum args 4
    let y := argNum args 5
    (⟨x, y, x1, y1, x2, y2⟩, [.bezierCurveTo x1 y1 x2 y2 x y])
  | 'c' =>
    let x1 := cp.x + argNum args 0
    let y1 := cp.y + argNum args 1
    let x2 := cp.x + argNum args 2
    let y2 := cp.y + argNum args 3
    let x := cp.x + argNum args 4
    let y := cp.y + argNum args 5
    (⟨x, y, x1, y1, x2, y2⟩, [.bezierCurveTo x1 y1 x2 y2 x y])
  | 'S' =>
    if cp.x1 ≠ 0 ∧ cp.y1 ≠ 0 ∧ cp.x2 ≠ 0 ∧ cp.y2 ≠ 0 then
      let x1 := cp.x - cp.x2 + cp.x
      let y1 := cp.y - cp.y2 + cp.y
      let x2 := argNum args 0
      let y2 := argNum args 1
      let x := argNum args 2
      let y := argNum args 3
      (⟨x, y, x1, y1, x2, y2⟩, [.bezierCurveTo x1 y1 x2 y2 x y])
    else
      let x1 := argNum args 0
      let y1 := argNum args 1
      let x := argNum args 2
      let y := argNum args 3
      ({ cp with x := x, y := y, x1 := x1, y1 := y1 },
        [.quadraticCurveTo x1 y1 x y])
  | 's' =>
    if cp.x1 ≠ 0 ∧ cp.y1 ≠ 0 ∧ cp.x2 ≠ 0 ∧ cp.y2 ≠ 0 then
      let x1 := cp.x - cp.x2 + cp.x
      let y1 := cp.y - cp.y2 + cp.y
      let x2 := cp.x + argNum args 0
      let y2 := cp.y + argNum args 1
      let x := cp.x + argNum args 2
      let y := cp.y + argNum args 3
      (⟨x, y, x1, y1, x2, y2⟩, [.bezierCurveTo x1 y1 x2 y2 x y])
    else
      let x1 := cp.x + argNum args 0
      let y1 := cp.y + argNum args 1
      let x := cp.x + argNum args 2
      let y := cp.y + argNum args 3
      ({ cp with x := x, y := y, x1 := x1, y1 := y1 },
        [.quadraticCurveTo x1 y1 x y])
  | 'Q' =>
    let x1 := argNum args 0
    let y1 := argNum args 1
    let x := argNum args 2
    let y := argNum args 3
    ({ cp with x := x, y := y, x1 := x1, y1 := y1 },
      [.quadraticCurveTo x1 y1 x y])
  | 'q' =>
    let x1 := cp.x + argNum args 0
    let y1 := cp.y + argNum args 1
    let x := cp.x + argNum args 2
    let y := cp.y + argNum args 3
    ({ cp with x := x, y := y, x1 := x1, y1 := y1 },
      [.quadraticCurveTo x1 y1 x y])
  | 'A' => (cp, [])
  | 'a' => (cp, [])
  | 'Z' => (cp, [.closePath])
  | 'z' => (cp, [.closePath])
  | _ => (cp, [])

/-- First `replace` of `drawBezier`: every ASCII letter `c` becomes
`|||c ` (regex `/([a-zA-Z])/g` → `'|||$1 '`). -/
def replaceLetters (s : List Char) : List Char :=
  s.foldr
    (fun c acc =>
      if ('a' ≤ c ∧ c ≤ 'z') ∨ ('A' ≤ c ∧ c ≤ 'Z') then
        '|' :: '|' :: '|' :: c :: ' ' :: acc
      else c :: acc)
    []

/-- Second `replace` of `drawBezier`: every comma becomes a space. -/
def replaceCommas (s : List Char) : List Char :=
  s.map (fun c => if c = ',' then ' ' else c)

/-- `String.prototype.split('|||')`: leftmost-first split on the
three-pipe separator, keeping empty segments (as JavaScript does). -/
def splitSegs : List Char → List (List Char)
  | '|' :: '|' :: '|' :: rest => [] :: splitSegs rest
  | c :: rest =>
    match splitSegs rest with
    | [] => [[c]]
    | s :: ss => (c :: s) :: ss
  | [] => [[]]

/-- `String.prototype.split(' ')`: split on every single space, keeping
empty segments (as JavaScript does). -/
def splitSpaces : List Char → List (List Char)
  | ' ' :: rest => [] :: splitSpaces rest
  | c :: rest =>
    match splitSpaces rest with
    | [] => [[c]]
    | s :: ss => (c :: s) :: ss
  | [] => [[]]

/-- `String.prototype.trim()`: strip whitespace from both ends. -/
def trimChars (cs : List Char) : List Char :=
  (((cs.dropWhile Char.isWhitespace).reverse).dropWhile Char.isWhitespace).reverse

/-- The body of the `d.split('|||').forEach` callback: skip empty
segments, dispatch on the leading command letter when it is one of
`validMethods` (`segment.substr(1).trim().split(' ')` supplies the
arguments). -/
def processSegment (cp : CurrentPoint) (seg : List Char) : CurrentPoint × List CanvasOp :=
  match seg with
  | [] => (cp, [])
  | c :: rest =>
    if validMethods.data.contains c then
      drawBezierElement cp c ((splitSpaces (trimChars rest)).map String.mk)
    else (cp, [])

/-- Fold of `processSegment` over all segments, threading the current
point and concatenating the issued calls. -/
def processSegments (cp : CurrentPoint) : List (List Char) → CurrentPoint × List CanvasOp
  | [] => (cp, [])
  | seg :: rest =>
    let r := processSegment cp seg
    let r' := processSegments r.1 rest
    (r'.1, r.2 ++ r'.2)

/-- The path-construction calls of `drawBezier` for a path string `d`:
tokenize (`replace`, `replace`, `split('|||')`) and run every segment
from the zero-initialised `currentPoint`. -/
def bezierPathOps (d : String) : List CanvasOp :=
  (processSegments ⟨0, 0, 0, 0, 0, 0⟩
    (splitSegs (replaceCommas (replaceLetters d.data)))).2

/-- `resetShapeStyles(context, styles)`.  The source guards the middle
block with `if (styles)`, but every call site already guards with
`obj._styles &&`, so `styles` is always defined here and the guard is
always taken. -/
def resetShapeStyles (styles : ParseStyles) : List CanvasOp :=
  [.setStrokeStyle (jsOrStr styles.strokeStr "transparent"),
   .setLineWidth (jsOrUndef styles.strokeWidth),
   .setLineCap (jsOrUndefStr styles.lineCapStr),
   .setLineJoin (jsOrUndefStr styles.lineJoinStr),
   .setMiterLimit (jsOrUndef styles.miterLimit),
   .setFillStyle (jsOrStr styles.fillStr "transparent")] ++
  (if numTruthy styles.lineDashI || numTruthy styles.lineDashII
      || numTruthy styles.lineDashIII then
    [.setLineDash (ternNum styles.lineDashI) (ternNum styles.lineDashII)
      (ternNum styles.lineDashIII)]
  else [])

/-- The `context.transform(t.a || 1, t.b || 0, t.c || 0, t.d || 1,
t.tx || 0, t.ty || 0)` call issued for a sprite's or a shape's transform
(the identical expression appears in `render`, `drawBezier`,
`drawEllipse` and `drawRect`). -/
def transformOp (t : Transform) : CanvasOp :=
  .transform (jsOr t.a 1) (jsOr t.b 0) (jsOr t.c 0) (jsOr t.d 1)
    (jsOr t.tx 0) (jsOr t.ty 0)

/-- The tail of every shape-drawing function:
`if (obj._styles && obj._styles.fill) fill(); else if (obj._styles &&
obj._styles.stroke) stroke();`. -/
def finishOps (styles : Option ParseStyles) : List CanvasOp :=
  match styles with
  | some s => if strTruthy s.fill then [.fill]
      else if strTruthy s.stroke then [.stroke]
      else []
  | none => []

/-- `obj._styles && resetShapeStyles(context, obj._styles)`. -/
def shapeStyleOps (styles : Option ParseStyles) : List CanvasOp :=
  match styles with
  | some s => resetShapeStyles s
  | none => []

/-- `if (obj._transform) context.transform(...)` — the transform guard
shared by the three shape-drawing functions. -/
def shapeTransformOps (tr : Option Transform) : List CanvasOp :=
  match tr with
  | some t => [transformOp t]
  | none => []

/-- `drawBezier(context, obj)` for `obj = {_d, _transform?, _styles?}`:
save, optional style reset, optional transform, `beginPath`, the parsed
path commands, optional fill/stroke, restore. -/
def drawBezier (d : String) (tr : Option Transform) (styles : Option ParseStyles) :
    List CanvasOp :=
  [.save] ++ shapeStyleOps styles ++ shapeTransformOps tr ++
  ([.beginPath] ++ bezierPathOps d) ++ finishOps styles ++ [.restore]

/-- The constructor arguments of `new EllipsePath(...)`. -/
structure EllipsePath where
  x : ℚ
  y : ℚ
  radiusX : ℚ
  radiusY : ℚ
  transform : Option Transform
  styles : Option ParseStyles
deriving DecidableEq, Repr

/-- The constructor arguments of `new RectPath(...)`. -/
structure RectPath where
  x : ℚ
  y : ℚ
  width : ℚ
  height : ℚ
  cornerRadius : ℚ
  transform : Option Transform
  styles : Option ParseStyles
deriving DecidableEq, Repr

/-- The path-construction calls of `drawEllipse`: the ellipse is
approximated by four cubic Bézier arcs with the constant
`kappa = 0.5522848` (written as an explicit fraction). -/
def ellipsePathOps (obj : EllipsePath) : List CanvasOp :=
  let x := obj.x - obj.radiusX
  let y := obj.y - obj.radiusY
  let w := obj.radiusX * 2
  let h := obj.radiusY * 2
  let kappa : ℚ := 5522848 / 10000000
  let ox := (w / 2) * kappa
  let oy := (h / 2) * kappa
  let xe := x + w
  let ye := y + h
  let xm := x + w / 2
  let ym := y + h / 2
  [.beginPath,
   .moveTo x ym,
   .bezierCurveTo x (ym - oy) (xm - ox) y xm y,
   .bezierCurveTo (xm + ox) y xe (ym - oy) xe ym,
   .bezierCurveTo xe (ym + oy) (xm + ox) ye xm ye,
   .bezierCurveTo (xm - ox) ye x (ym + oy) x ym]

/-- `drawEllipse(context, obj)`. -/
def drawEllipse (obj : EllipsePath) : List CanvasOp :=
  [.save] ++ shapeStyleOps obj.styles ++ shapeTransformOps obj.transform ++
  ellipsePathOps obj ++ finishOps obj.styles ++ [.restore]

/-- The corner-radius clamping of `drawRect`:
`if (width < 2*radius) radius = width/2; if (height < 2*radius)
radius = height/2`. -/
def clampedRadius (width height radius : ℚ) : ℚ :=
  let r1 := if width < 2 * radius then width / 2 else radius
  if height < 2 * r1 then height / 2 else r1

/-- The path-construction calls of `drawRect`: rounded rectangle via
`moveTo` and four consecutive `arcTo` segments using the clamped
radius. -/
def rectPathOps (obj : RectPath) : List CanvasOp :=
  let x := obj.x
  let y := obj.y
  let width := obj.width
  let height := obj.height
  let radius := clampedRadius obj.width obj.height obj.cornerRadius
  [.beginPath,
   .moveTo (x + radius) y,
   .arcTo (x + width) y (x + width) (y + height) radius,
   .arcTo (x + width) (y + height) x (y + height) radius,
   .arcTo x (y + height) x y radius,
   .arcTo x y (x + width) y radius,
   .closePath]

/-- `drawRect(context, obj)`. -/
def drawRect (obj : RectPath) : List CanvasOp :=
  [.save] ++ shapeStyleOps obj.styles ++ shapeTransformOps obj.transform ++
  rectPathOps obj ++ finishOps obj.styles ++ [.restore]

/-- `svga.ShapeEntity.ShapeType`. -/
inductive ShapeType where
  | SHAPE
  | RECT
  | ELLIPSE
  | KEEP
deriving DecidableEq, Repr

/-- The `shape` (path) argument payload of a `ShapeEntity`. -/
structure ShapeArgs where
  d : Option String
deriving DecidableEq, Repr

/-- The `ellipse` argument payload of a `ShapeEntity`. -/
structure EllipseArgs where
  x : Option ℚ
  y : Option ℚ
  radiusX : Option ℚ
  radiusY : Option ℚ
deriving DecidableEq, Repr

/-- The `rect` argument payload of a `ShapeEntity`. -/
structure RectArgs where
  x : Option ℚ
  y : Option ℚ
  width : Option ℚ
  height : Option ℚ
  cornerRadius : Option ℚ
deriving DecidableEq, Repr

/-- A `ShapeEntity`: a kind tag, at most one argument payload, an
optional transform and optional styles. -/
structure ShapeEntity where
  type : ShapeType
  shape : Option ShapeArgs
  ellipse : Option EllipseArgs
  rect : Option RectArgs
  transform : Option Transform
  styles : Option ParseStyles
deriving DecidableEq, Repr

/-- The truthy `shape.shape && shape.shape.d` chain, yielding the path
string when it is present and non-empty. -/
def shapeDString (shape : ShapeEntity) : Option String :=
  match shape.shape with
  | some sa =>
    match sa.d with
    | some d => if d = "" then none else some d
    | none => none
  | none => none

/-- The body of the `frameItem.shapes.forEach` callback: dispatch on the
shape's kind tag and payload presence (an unmatched combination draws
nothing, exactly as the source's `if`/`else if` chain falls through). -/
def shapeOps (shape : ShapeEntity) : List CanvasOp :=
  if shape.type = ShapeType.SHAPE then
    match shapeDString shape with
    | some d => drawBezier d shape.transform shape.styles
    | none => []
  else if shape.type = ShapeType.ELLIPSE then
    match shape.ellipse with
    | some e =>
      drawEllipse ⟨jsOr e.x 0, jsOr e.y 0, jsOr e.radiusX 0, jsOr e.radiusY 0,
        shape.transform, shape.styles⟩
    | none => []
  else if shape.type = ShapeType.RECT then
    match shape.rect with
    | some r =>
      drawRect ⟨jsOr r.x 0, jsOr r.y 0, jsOr r.width 0, jsOr r.height 0,
        jsOr r.cornerRadius 0, shape.transform, shape.styles⟩
    | none => []
  else []

/-- A dynamic-element source, tagged with the DOM interface the source's
`instanceof` chain distinguishes, carrying the dimension fields that
chain reads and an identity for the call trace. -/
inductive DynSource where
  | htmlImage (naturalWidth naturalHeight : ℚ) (srcId : Nat)
  | htmlVideo (videoWidth videoHeight : ℚ) (srcId : Nat)
  | svgImage (baseValWidth baseValHeight : ℚ) (srcId : Nat)
  | other (width height : ℚ) (srcId : Nat)
deriving DecidableEq, Repr

/-- The `sourceWidth`/`sourceHeight` extraction (`instanceof` chain). -/
def DynSource.dims : DynSource → ℚ × ℚ
  | .htmlImage w h _ => (w, h)
  | .htmlVideo w h _ => (w, h)
  | .svgImage w h _ => (w, h)
  | .other w h _ => (w, h)

/-- The identity used to report which source a draw call targets. -/
def DynSource.srcId : DynSource → Nat
  | .htmlImage _ _ i => i
  | .htmlVideo _ _ i => i
  | .svgImage _ _ i => i
  | .other _ _ i => i

/-- A `DynamicElement`: either a bare source or `{ source, fit }`
(the source distinguishes them with `'fit' in dynamicElement`). -/
inductive DynamicElement where
  | raw (source : DynSource)
  | withFit (source : DynSource) (fit : String)
deriving DecidableEq, Repr

/-- The dynamic-element block of `render`: destructure source and fit
(a bare source gets `fit = 'none'`), extract the source dimensions and
dispatch on the fit string (`switch` with `'none'` and `default`
coinciding). -/
def dynamicElementOps (layout : Layout) (de : DynamicElement) : List CanvasOp :=
  let sf : DynSource × String :=
    match de with
    | .raw s => (s, "none")
    | .withFit s f => (s, f)
  let source := sf.1
  let fit := sf.2
  let sourceWidth := source.dims.1
  let sourceHeight := source.dims.2
  if fit = "contain" then
    let wRatio := layout.width / sourceWidth
    let hRatio := layout.height / sourceHeight
    let ratio := min wRatio hRatio
    let width := ratio * sourceWidth
    let height := ratio * sourceHeight
    [.drawImageRect source.srcId ((layout.width - width) / 2)
      ((layout.height - height) / 2) width height]
  else if fit = "cover" then
    let wRatio := layout.width / sourceWidth
    let hRatio := layout.height / sourceHeight
    let ratio := max wRatio hRatio
    let width := ratio * sourceWidth
    let height := ratio * sourceHeight
    [.drawImageRect source.srcId ((layout.width - width) / 2)
      ((layout.height - height) / 2) width height]
  else if fit = "fill" then
    [.drawImageRect source.srcId 0 0 layout.width layout.height]
  else
    [.drawImagePos source.srcId ((layout.width - sourceWidth) / 2)
      ((layout.height - sourceHeight) / 2)]

/-- A `FrameEntity` as the renderer reads it. -/
structure FrameEntity where
  alpha : ℚ
  transform : Transform
  layout : Layout
  clipPath : Option String
  shapes : Option (List ShapeEntity)
deriving DecidableEq, Repr

/-- A `SpriteEntity` as the renderer reads it. -/
structure SpriteEntity where
  imageKey : Option String
  frames : List FrameEntity
deriving DecidableEq, Repr

/-- `sprite.imageKey && bitmapCache[sprite.imageKey]`: a falsy (absent or
empty) key short-circuits, otherwise the cache is consulted. -/
def lookupBitmap (imageKey : Option String) (bitmapCache : String → Option Bitmap) :
    Option Bitmap :=
  match imageKey with
  | none => none
  | some k => if k = "" then none else bitmapCache k

/-- `sprite.imageKey && dynamicElements[sprite.imageKey]`. -/
def lookupDynamic (imageKey : Option String)
    (dynamicElements : String → Option DynamicElement) : Option DynamicElement :=
  match imageKey with
  | none => none
  | some k => if k = "" then none else dynamicElements k

/-- `if (frameItem.clipPath) { drawBezier(context, {_d: clipPath});
context.clip() }`: the clip path is run through `drawBezier` with no
transform and no styles, then `clip()` is issued. -/
def clipOps (clipPath : Option String) : List CanvasOp :=
  match clipPath with
  | some p => if p = "" then [] else drawBezier p none none ++ [.clip]
  | none => []

/-- The bitmap block of the per-sprite body: when the truthy key has a
cached bitmap, establish the clip (if any) and blit the bitmap at the
local origin at intrinsic size. -/
def imageBlock (bitmapCache : String → Option Bitmap) (imageKey : Option String)
    (clipPath : Option String) : List CanvasOp :=
  match lookupBitmap imageKey bitmapCache with
  | some img => clipOps clipPath ++ [.drawImageOrigin img]
  | none => []

/-- The dynamic-element block of the per-sprite body. -/
def dynamicBlock (dynamicElements : String → Option DynamicElement)
    (imageKey : Option String) (layout : Layout) : List CanvasOp :=
  match lookupDynamic imageKey dynamicElements with
  | some de => dynamicElementOps layout de
  | none => []

/-- `frameItem.shapes && frameItem.shapes.forEach(...)`. -/
def shapesBlock : Option (List ShapeEntity) → List CanvasOp
  | some shapes => (shapes.map shapeOps).flatten
  | none => []

/-- The whole per-sprite body of `render`'s `forEach`: skip when
`alpha < 0.05`, otherwise save, set the global alpha, apply the sprite
transform, run the bitmap block, the dynamic-element block and the shape
list, then restore. -/
def renderFrameItem (bitmapCache : String → Option Bitmap)
    (dynamicElements : String → Option DynamicElement)
    (imageKey : Option String) (frameItem : FrameEntity) : List CanvasOp :=
  if frameItem.alpha < 1 / 20 then []
  else
    [.save, .setGlobalAlpha frameItem.alpha, transformOp frameItem.transform] ++
    imageBlock bitmapCache imageKey frameItem.clipPath ++
    dynamicBlock dynamicElements imageKey frameItem.layout ++
    shapesBlock frameItem.shapes ++
    [.restore]

/-- One sprite of `render`: look up `sprite.frames[currentFrame]` and run
the per-sprite body.  An out-of-range index (which would fault in the
source) yields no calls; the spec's invariant keeps indices in range. -/
def renderSprite (bitmapCache : String → Option Bitmap)
    (dynamicElements : String → Option DynamicElement)
    (currentFrame : Nat) (sprite : SpriteEntity) : List CanvasOp :=
  match sprite.frames.get? currentFrame with
  | none => []
  | some frameItem =>
    renderFrameItem bitmapCache dynamicElements sprite.imageKey frameItem

/-- The drawing surface handed to `render`: `getContext('2d')` may yield
no context. -/
structure Canvas where
  context2d : Option Unit
  id : Nat
deriving DecidableEq, Repr

/-- The sprite list of a `VideoEntity` (the renderer reads nothing else
from it). -/
structure VideoEntity where
  sprites : List SpriteEntity
deriving DecidableEq, Repr

/-- `render(canvas, bitmapCache, dynamicElements, videoItem,
currentFrame)`: with no 2D context the failure is logged and the canvas
returned unchanged with nothing drawn, otherwise every sprite is
processed in list order and the canvas returned.  The second component
is the list of context calls issued. -/
def render (canvas : Canvas) (bitmapCache : String → Option Bitmap)
    (dynamicElements : String → Option DynamicElement)
    (videoItem : VideoEntity) (currentFrame : Nat) : Canvas × List CanvasOp :=
  match canvas.context2d with
  | none => (canvas, [])
  | some _ =>
    (canvas,
      videoItem.sprites.foldl
        (fun acc sprite =>
          acc ++ renderSprite bitmapCache dynamicElements currentFrame sprite)
        [])

/-! Helper lemmas. -/

theorem jsOr_one_ne_zero (v : Option ℚ) : jsOr v 1 ≠ 0 := by
  rcases v with _ | x
  · simp [jsOr]
  · simp only [jsOr]
    split_ifs with hx
    · norm_num
    · exact hx

theorem foldl_append_eq_flatten {α β : Type} (f : α → List β) (l : List α)
    (acc : List β) :
    l.foldl (fun a x => a ++ f x) acc = acc ++ (l.map f).flatten := by
  induction l generalizing acc with
  | nil => simp
  | cons x xs ih => simp [ih, List.append_assoc]

/-! The claims. -/

/-- Claim C9 (confirmed): when the drawing surface yields no 2D context,
`render` performs no drawing operation, does not throw, and returns the
canvas unchanged (the source logs the failure and returns). -/
theorem C9_null_context_noop (canvas : Canvas) (bc : String → Option Bitmap)
    (dyn : String → Option DynamicElement) (videoItem : VideoEntity) (n : Nat)
    (h : canvas.context2d = none) :
    render canvas bc dyn videoItem n = (canvas, []) := by
  simp [render, h]

/-- Witness for C9 at a concrete canvas with no 2D context. -/
theorem C9_null_context_noop_witness :
    render ⟨none, 0⟩ (fun _ => none) (fun _ => none) ⟨[]⟩ 0 = (⟨none, 0⟩, []) :=
  C9_null_context_noop ⟨none, 0⟩ (fun _ => none) (fun _ => none) ⟨[]⟩ 0 rfl

/-- Claim C6 (confirmed): a sprite whose frame has `alpha < 0.05` is
skipped entirely — no context call at all is issued for it — and the
full render trace is the concatenation of the per-sprite traces in
sprite-list order. -/
theorem C6_alpha_skip (bc : String → Option Bitmap)
    (dyn : String → Option DynamicElement) (n : Nat) (sprite : SpriteEntity)
    (f : FrameEntity) (c : Canvas) (u : Unit) (videoItem : VideoEntity)
    (h1 : sprite.frames.get? n = some f) (h2 : f.alpha < 1 / 20)
    (h3 : c.context2d = some u) :
    renderSprite bc dyn n sprite = [] ∧
    (render c bc dyn videoItem n).2 =
      (videoItem.sprites.map (renderSprite bc dyn n)).flatten := by
  constructor
  · simp only [renderSprite, h1, renderFrameItem]
    rw [if_pos h2]
  · simp [render, h3, foldl_append_eq_flatten]

/-- Witness for C6: a sprite with frame alpha 0.01 yields no calls. -/
theorem C6_alpha_skip_witness :
    renderSprite (fun _ => some ⟨0⟩) (fun _ => none) 0
        ⟨some "key", [⟨1 / 100, ⟨none, none, none, none, none, none⟩,
          ⟨0, 0, 10, 10⟩, none, none⟩]⟩ = [] ∧
    (render ⟨some (), 1⟩ (fun _ => some ⟨0⟩) (fun _ => none) ⟨[]⟩ 0).2 =
      ((⟨[]⟩ : VideoEntity).sprites.map
        (renderSprite (fun _ => some ⟨0⟩) (fun _ => none) 0)).flatten :=
  C6_alpha_skip (fun _ => some ⟨0⟩) (fun _ => none) 0
    ⟨some "key", [⟨1 / 100, ⟨none, none, none, none, none, none⟩,
      ⟨0, 0, 10, 10⟩, none, none⟩]⟩
    ⟨1 / 100, ⟨none, none, none, none, none, none⟩, ⟨0, 0, 10, 10⟩, none, none⟩
    ⟨some (), 1⟩ () ⟨[]⟩ rfl (by norm_num) rfl

/-- Claim C10 (confirmed): a transform component whose value is 0 in a
position whose default is non-zero is replaced by that default — `a = 0`
or `d = 0` is applied as 1 — and the `transform` call issued (for a
sprite or a shape, both go through `transformOp`) never carries 0 in the
`a` or `d` position. -/
theorem C10_zero_component_defaults (t : Transform) :
    (∀ a b c d tx ty : ℚ,
      transformOp t = CanvasOp.transform a b c d tx ty → a ≠ 0 ∧ d ≠ 0)
    ∧ (t.a = some 0 → jsOr t.a 1 = 1)
    ∧ (t.d = some 0 → jsOr t.d 1 = 1) := by
  refine ⟨?_, ?_, ?_⟩
  · intro a b c d tx ty heq
    simp only [transformOp] at heq
    injection heq with ha hb hc hd htx hty
    exact ⟨ha ▸ jsOr_one_ne_zero t.a, hd ▸ jsOr_one_ne_zero t.d⟩
  · intro ha
    rw [ha]
    simp [jsOr]
  · intro hd
    rw [hd]
    simp [jsOr]

/-- Witness for C10 at a transform with `a = 0` and `d = 0` present. -/
theorem C10_zero_component_defaults_witness :
    ((1 : ℚ) ≠ 0 ∧ (1 : ℚ) ≠ 0) ∧
    jsOr (some (0 : ℚ)) 1 = 1 :=
  ⟨(C10_zero_component_defaults ⟨some 0, none, none, some 0, none, none⟩).1
      1 0 0 1 0 0 (by decide),
   (C10_zero_component_defaults ⟨some 0, none, none, some 0, none, none⟩).2.1 rfl⟩

/-- Claim C5 (corrected) — counterexample: a transform whose `a` field is
present with value 0 is not passed through: the issued call carries
`a = 1`, not the present value 0, so "present fields are passed through"
fails. -/
theorem C5_counterexample :
    transformOp ⟨some 0, some 2, some 3, some 4, some 5, some 6⟩ =
      CanvasOp.transform 1 2 3 4 5 6
    ∧ transformOp ⟨some 0, some 2, some 3, some 4, some 5, some 6⟩ ≠
      CanvasOp.transform 0 2 3 4 5 6 := by
  decide

/-- Claim C5 (corrected) — amended: absent transform fields take the
per-field defaults `a = d = 1`, `b = c = tx = ty = 0`; present fields
are passed through unless their value is 0, in which case the default is
used (observable only on `a` and `d`, whose defaults are non-zero). -/
theorem C5_amended_transform_defaults (t : Transform) :
    transformOp t =
      CanvasOp.transform (jsOr t.a 1) (jsOr t.b 0) (jsOr t.c 0) (jsOr t.d 1)
        (jsOr t.tx 0) (jsOr t.ty 0)
    ∧ (∀ dflt : ℚ, jsOr none dflt = dflt)
    ∧ (∀ v dflt : ℚ, v ≠ 0 → jsOr (some v) dflt = v) := by
  refine ⟨rfl, fun _ => rfl, fun v dflt hv => ?_⟩
  simp [jsOr, hv]

/-- Witness for C5's amended claim: a present non-zero field is passed
through. -/
theorem C5_amended_transform_defaults_witness :
    jsOr (some (5 : ℚ)) 1 = 5 :=
  (C5_amended_transform_defaults ⟨none, none, none, none, none, none⟩).2.2 5 1
    (by norm_num)

/-- Claim C7 (confirmed): after path construction each of the three
shape-drawing functions applies exactly one of fill or stroke — fill
when the style specifies fill (taking precedence when both are set),
else stroke when the style specifies stroke, and neither when the style
specifies neither (or is absent). -/
theorem C7_fill_stroke_precedence :
    (∀ st : ParseStyles, strTruthy st.fill = true →
      finishOps (some st) = [CanvasOp.fill])
    ∧ (∀ st : ParseStyles, strTruthy st.fill = false → strTruthy st.stroke = true →
      finishOps (some st) = [CanvasOp.stroke])
    ∧ (∀ st : ParseStyles, strTruthy st.fill = false → strTruthy st.stroke = false →
      finishOps (some st) = [])
    ∧ finishOps none = []
    ∧ (∀ (d : String) (tr : Option Transform) (st : Option ParseStyles),
      drawBezier d tr st =
        ([CanvasOp.save] ++ shapeStyleOps st ++ shapeTransformOps tr ++
          ([CanvasOp.beginPath] ++ bezierPathOps d)) ++
        finishOps st ++ [CanvasOp.restore])
    ∧ (∀ e : EllipsePath,
      drawEllipse e =
        ([CanvasOp.save] ++ shapeStyleOps e.styles ++
          shapeTransformOps e.transform ++ ellipsePathOps e) ++
        finishOps e.styles ++ [CanvasOp.restore])
    ∧ (∀ r : RectPath,
      drawRect r =
        ([CanvasOp.save] ++ shapeStyleOps r.styles ++
          shapeTransformOps r.transform ++ rectPathOps r) ++
        finishOps r.styles ++ [CanvasOp.restore]) := by
  refine ⟨?_, ?_, ?_, rfl, ?_, ?_, ?_⟩
  · intro st hf
    simp [finishOps, hf]
  · intro st hf hs
    simp [finishOps, hf, hs]
  · intro st hf hs
    simp [finishOps, hf, hs]
  · intro d tr st
    simp [drawBezier]
  · intro e
    simp [drawEllipse]
  · intro r
    simp [drawRect]

/-- Witness for C7: a style with both fill and stroke set yields exactly
one `fill()` call. -/
theorem C7_fill_stroke_precedence_witness :
    finishOps (some ⟨some "red", some "blue", none, none, none, none, none,
      none, none, none, none⟩) = [CanvasOp.fill] :=
  C7_fill_stroke_precedence.1
    ⟨some "red", some "blue", none, none, none, none, none, none, none, none,
      none⟩ rfl

/-- Claim C4 (confirmed): for a rect with non-negative width and height
the effective corner radius used in the four `arcTo` segments satisfies
`2 × radius ≤ min width height`, and a declared `cornerRadius` exceeding
`min width height / 2` is clamped to exactly `min width height / 2`. -/
theorem C4_corner_radius_clamped (x y w h r : ℚ) (tr : Option Transform)
    (st : Option ParseStyles) (hw : 0 ≤ w) (hh : 0 ≤ h) :
    2 * clampedRadius w h r ≤ min w h
    ∧ (min w h / 2 < r → clampedRadius w h r = min w h / 2)
    ∧ drawRect ⟨x, y, w, h, r, tr, st⟩ =
      [CanvasOp.save] ++ shapeStyleOps st ++ shapeTransformOps tr ++
      [CanvasOp.beginPath,
       CanvasOp.moveTo (x + clampedRadius w h r) y,
       CanvasOp.arcTo (x + w) y (x + w) (y + h) (clampedRadius w h r),
       CanvasOp.arcTo (x + w) (y + h) x (y + h) (clampedRadius w h r),
       CanvasOp.arcTo x (y + h) x y (clampedRadius w h r),
       CanvasOp.arcTo x y (x + w) y (clampedRadius w h r),
       CanvasOp.closePath] ++
      finishOps st ++ [CanvasOp.restore] := by
  refine ⟨?_, ?_, ?_⟩
  · rcases le_total w h with hwh | hwh
    · rw [min_eq_left hwh]
      simp only [clampedRadius]
      split_ifs <;> linarith
    · rw [min_eq_right hwh]
      simp only [clampedRadius]
      split_ifs <;> linarith
  · intro hr
    rcases le_total w h with hwh | hwh
    · rw [min_eq_left hwh] at hr ⊢
      simp only [clampedRadius]
      split_ifs <;> linarith
    · rw [min_eq_right hwh] at hr ⊢
      simp only [clampedRadius]
      split_ifs <;> linarith
  · simp [drawRect, rectPathOps]

/-- Witness for C4 at `w = 4`, `h = 10`, declared radius 6: the
effective radius is `min 4 10 / 2 = 2`. -/
theorem C4_corner_radius_clamped_witness :
    2 * clampedRadius 4 10 6 ≤ min (4 : ℚ) 10
    ∧ (min (4 : ℚ) 10 / 2 < 6 → clampedRadius 4 10 6 = min (4 : ℚ) 10 / 2)
    ∧ drawRect ⟨0, 0, 4, 10, 6, none, none⟩ =
      [CanvasOp.save] ++ shapeStyleOps none ++ shapeTransformOps none ++
      [CanvasOp.beginPath,
       CanvasOp.moveTo (0 + clampedRadius 4 10 6) 0,
       CanvasOp.arcTo (0 + 4) 0 (0 + 4) (0 + 10) (clampedRadius 4 10 6),
       CanvasOp.arcTo (0 + 4) (0 + 10) 0 (0 + 10) (clampedRadius 4 10 6),
       CanvasOp.arcTo 0 (0 + 10) 0 0 (clampedRadius 4 10 6),
       CanvasOp.arcTo 0 0 (0 + 4) 0 (clampedRadius 4 10 6),
       CanvasOp.closePath] ++
      finishOps none ++ [CanvasOp.restore] :=
  C4_corner_radius_clamped 0 0 4 10 6 none none (by norm_num) (by norm_num)

/-- Claim C1 (corrected) — counterexample: a sprite whose `imageKey` has
both a cached bitmap and a dynamic-element override still gets its
bitmap blitted: the trace contains `drawImageOrigin ⟨0⟩` (the cached
bitmap) right before the override's draw call, refuting "no blit of the
cached bitmap for that key is issued for that sprite". -/
theorem C1_counterexample :
    renderFrameItem (fun s => if s = "key" then some ⟨0⟩ else none)
      (fun s => if s = "key" then
        some (DynamicElement.raw (DynSource.other 10 10 7)) else none)
      (some "key")
      ⟨1, ⟨none, none, none, none, none, none⟩, ⟨0, 0, 100, 100⟩, none, none⟩ =
    [CanvasOp.save, CanvasOp.setGlobalAlpha 1, CanvasOp.transform 1 0 0 1 0 0,
     CanvasOp.drawImageOrigin ⟨0⟩, CanvasOp.drawImagePos 7 45 45,
     CanvasOp.restore] := by
  simp +decide [renderFrameItem, imageBlock, dynamicBlock, shapesBlock,
    lookupBitmap, lookupDynamic, clipOps, transformOp, jsOr, dynamicElementOps,
    DynSource.dims, DynSource.srcId]
  norm_num

/-- Claim C1 (corrected) — amended: when the `imageKey` has a
dynamic-element override, the override's drawable is drawn in addition
to the sprite's bitmap, not instead of it: the cached-bitmap blit is
still issued whenever the key is in the bitmap cache, and the override's
draw calls follow immediately after it. -/
theorem C1_amended_bitmap_then_override (bc : String → Option Bitmap)
    (dyn : String → Option DynamicElement) (k : String) (f : FrameEntity)
    (img : Bitmap) (de : DynamicElement)
    (halpha : ¬ f.alpha < 1 / 20) (hk : ¬ k = "")
    (hbc : bc k = some img) (hdyn : dyn k = some de) :
    ∃ pre post,
      renderFrameItem bc dyn (some k) f =
        pre ++ [CanvasOp.drawImageOrigin img] ++
        dynamicElementOps f.layout de ++ post := by
  refine ⟨[CanvasOp.save, CanvasOp.setGlobalAlpha f.alpha,
    transformOp f.transform] ++ clipOps f.clipPath,
    shapesBlock f.shapes ++ [CanvasOp.restore], ?_⟩
  simp only [renderFrameItem, imageBlock, dynamicBlock, lookupBitmap,
    lookupDynamic, hbc, hdyn, if_neg hk, if_neg halpha]
  simp [List.append_assoc]

/-- Witness for C1's amended claim at a concrete sprite carrying both a
cached bitmap and an override. -/
theorem C1_amended_bitmap_then_override_witness :
    ∃ pre post,
      renderFrameItem (fun _ => some ⟨3⟩)
          (fun _ => some (DynamicElement.raw (DynSource.other 2 2 9)))
          (some "k")
          ⟨1, ⟨none, none, none, none, none, none⟩, ⟨0, 0, 8, 8⟩, none, none⟩ =
        pre ++ [CanvasOp.drawImageOrigin ⟨3⟩] ++
        dynamicElementOps ⟨0, 0, 8, 8⟩
          (DynamicElement.raw (DynSource.other 2 2 9)) ++ post :=
  C1_amended_bitmap_then_override (fun _ => some ⟨3⟩)
    (fun _ => some (DynamicElement.raw (DynSource.other 2 2 9))) "k"
    ⟨1, ⟨none, none, none, none, none, none⟩, ⟨0, 0, 8, 8⟩, none, none⟩
    ⟨3⟩ (DynamicElement.raw (DynSource.other 2 2 9))
    (by norm_num) (by decide) rfl rfl

/-- Claim C2 (confirmed): the draw calls issued for a sprite's shape
list are the same whether or not the sprite's frame declares a clip
path — the shape segment of the trace, right before the closing
`restore`, is `shapesBlock f.shapes` for every choice of clip path. -/
theorem C2_shapes_independent_of_clip (bc : String → Option Bitmap)
    (dyn : String → Option DynamicElement) (key : Option String)
    (f : FrameEntity) (cpA cpB : Option String)
    (halpha : ¬ f.alpha < 1 / 20) :
    ∃ preA preB t,
      renderFrameItem bc dyn key { f with clipPath := cpA } =
        preA ++ t ++ [CanvasOp.restore]
      ∧ renderFrameItem bc dyn key { f with clipPath := cpB } =
        preB ++ t ++ [CanvasOp.restore]
      ∧ t = shapesBlock f.shapes := by
  refine ⟨[CanvasOp.save, CanvasOp.setGlobalAlpha f.alpha,
      transformOp f.transform] ++ imageBlock bc key cpA ++
      dynamicBlock dyn key f.layout,
    [CanvasOp.save, CanvasOp.setGlobalAlpha f.alpha,
      transformOp f.transform] ++ imageBlock bc key cpB ++
      dynamicBlock dyn key f.layout,
    shapesBlock f.shapes, ?_, ?_, rfl⟩
  · simp only [renderFrameItem, if_neg halpha]
  · simp only [renderFrameItem, if_neg halpha]

/-- Witness for C2 at a concrete frame, comparing a declared clip path
against no clip path. -/
theorem C2_shapes_independent_of_clip_witness :
    ∃ preA preB t,
      renderFrameItem (fun _ => some ⟨0⟩) (fun _ => none) (some "k")
          ⟨1, ⟨none, none, none, none, none, none⟩, ⟨0, 0, 4, 4⟩,
            some "M0 0 L4 0", none⟩ =
        preA ++ t ++ [CanvasOp.restore]
      ∧ renderFrameItem (fun _ => some ⟨0⟩) (fun _ => none) (some "k")
          ⟨1, ⟨none, none, none, none, none, none⟩, ⟨0, 0, 4, 4⟩,
            none, none⟩ =
        preB ++ t ++ [CanvasOp.restore]
      ∧ t = shapesBlock none :=
  C2_shapes_independent_of_clip (fun _ => some ⟨0⟩) (fun _ => none) (some "k")
    ⟨1, ⟨none, none, none, none, none, none⟩, ⟨0, 0, 4, 4⟩, none, none⟩
    (some "M0 0 L4 0") none (by norm_num)

/-- Claim C3 (corrected) — counterexample: in the path
`"M0 0 C0 1 2 3 4 5 S6 7 8 9"` the `C` command leaves the prior cubic
control point `(x2, y2) = (2, 3)`, non-zero in both coordinates, yet the
following `S` is interpreted as a quadratic curve (because the stored
`x1` is 0), refuting "reflects ... exactly when a prior cubic control
point is non-zero in both coordinates". -/
theorem C3_counterexample :
    bezierPathOps "M0 0 C0 1 2 3 4 5 S6 7 8 9" =
      [CanvasOp.moveTo 0 0, CanvasOp.bezierCurveTo 0 1 2 3 4 5,
       CanvasOp.quadraticCurveTo 6 7 8 9]
    ∧ (2 : ℚ) ≠ 0 ∧ (3 : ℚ) ≠ 0 := by
  decide

/-- Claim C3 (corrected) — amended: `S`/`s` reflects the prior control
point (emitting a cubic curve) exactly when all four stored control
coordinates `x1, y1, x2, y2` are non-zero; otherwise the command is
interpreted as a quadratic curve whose control point is the command's
first coordinate pair.  The spec's concrete example stands: path
`"M0 0 S10 10 20 0"` with no prior control point resolves as a quadratic
curve with control point `(10, 10)` and endpoint `(20, 0)`. -/
theorem C3_amended_smooth_condition :
    (∀ (cp : CurrentPoint) (args : List String),
      cp.x1 ≠ 0 → cp.y1 ≠ 0 → cp.x2 ≠ 0 → cp.y2 ≠ 0 →
      (drawBezierElement cp 'S' args).2 =
        [CanvasOp.bezierCurveTo (cp.x - cp.x2 + cp.x) (cp.y - cp.y2 + cp.y)
          (argNum args 0) (argNum args 1) (argNum args 2) (argNum args 3)])
    ∧ (∀ (cp : CurrentPoint) (args : List String),
      ¬ (cp.x1 ≠ 0 ∧ cp.y1 ≠ 0 ∧ cp.x2 ≠ 0 ∧ cp.y2 ≠ 0) →
      (drawBezierElement cp 'S' args).2 =
        [CanvasOp.quadraticCurveTo (argNum args 0) (argNum args 1)
          (argNum args 2) (argNum args 3)])
    ∧ (∀ (cp : CurrentPoint) (args : List String),
      cp.x1 ≠ 0 → cp.y1 ≠ 0 → cp.x2 ≠ 0 → cp.y2 ≠ 0 →
      (drawBezierElement cp 's' args).2 =
        [CanvasOp.bezierCurveTo (cp.x - cp.x2 + cp.x) (cp.y - cp.y2 + cp.y)
          (cp.x + argNum args 0) (cp.y + argNum args 1)
          (cp.x + argNum args 2) (cp.y + argNum args 3)])
    ∧ (∀ (cp : CurrentPoint) (args : List String),
      ¬ (cp.x1 ≠ 0 ∧ cp.y1 ≠ 0 ∧ cp.x2 ≠ 0 ∧ cp.y2 ≠ 0) →
      (drawBezierElement cp 's' args).2 =
        [CanvasOp.quadraticCurveTo (cp.x + argNum args 0) (cp.y + argNum args 1)
          (cp.x + argNum args 2) (cp.y + argNum args 3)])
    ∧ bezierPathOps "M0 0 S10 10 20 0" =
        [CanvasOp.moveTo 0 0, CanvasOp.quadraticCurveTo 10 10 20 0] := by
  refine ⟨?_, ?_, ?_, ?_, by decide⟩
  · intro cp args h1 h2 h3 h4
    simp [drawBezierElement, h1, h2, h3, h4]
  · intro cp args hn
    simp [drawBezierElement, hn]
  · intro cp args h1 h2 h3 h4
    simp [drawBezierElement, h1, h2, h3, h4]
  · intro cp args hn
    simp [drawBezierElement, hn]

/-- Witness for C3's amended claim: with stored control state
`(x1, y1, x2, y2) = (1, 1, 2, 3)` all non-zero, `S 6 7 8 9` reflects and
emits a cubic curve. -/
theorem C3_amended_smooth_condition_witness :
    (drawBezierElement ⟨4, 5, 1, 1, 2, 3⟩ 'S' ["6", "7", "8", "9"]).2 =
      [CanvasOp.bezierCurveTo ((4 : ℚ) - 2 + 4) ((5 : ℚ) - 3 + 5)
        (argNum ["6", "7", "8", "9"] 0) (argNum ["6", "7", "8", "9"] 1)
        (argNum ["6", "7", "8", "9"] 2) (argNum ["6", "7", "8", "9"] 3)] :=
  C3_amended_smooth_condition.1 ⟨4, 5, 1, 1, 2, 3⟩ ["6", "7", "8", "9"]
    (by norm_num) (by norm_num) (by norm_num) (by norm_num)

/-- Claim C8 (confirmed): a dynamic-element override with known (positive)
source dimensions is drawn per its fit strategy — `contain` scales
uniformly (aspect preserved) to fit inside the layout, centered, touching
it on at least one axis; `cover` scales uniformly to cover the layout,
centered; `fill` stretches to exactly the layout rectangle at the origin;
`none` — also the default when the override carries no fit — draws at
intrinsic size centered in the layout rectangle. -/
theorem C8_fit_strategies (L : Layout) (src : DynSource)
    (hsw : 0 < src.dims.1) (hsh : 0 < src.dims.2) :
    (∃ w h, dynamicElementOps L (DynamicElement.withFit src "contain") =
        [CanvasOp.drawImageRect src.srcId ((L.width - w) / 2)
          ((L.height - h) / 2) w h]
      ∧ w * src.dims.2 = h * src.dims.1
      ∧ w ≤ L.width ∧ h ≤ L.height ∧ (w = L.width ∨ h = L.height))
    ∧ (∃ w h, dynamicElementOps L (DynamicElement.withFit src "cover") =
        [CanvasOp.drawImageRect src.srcId ((L.width - w) / 2)
          ((L.height - h) / 2) w h]
      ∧ w * src.dims.2 = h * src.dims.1
      ∧ L.width ≤ w ∧ L.height ≤ h ∧ (w = L.width ∨ h = L.height))
    ∧ dynamicElementOps L (DynamicElement.withFit src "fill") =
        [CanvasOp.drawImageRect src.srcId 0 0 L.width L.height]
    ∧ dynamicElementOps L (DynamicElement.withFit src "none") =
        [CanvasOp.drawImagePos src.srcId ((L.width - src.dims.1) / 2)
          ((L.height - src.dims.2) / 2)]
    ∧ dynamicElementOps L (DynamicElement.raw src) =
        dynamicElementOps L (DynamicElement.withFit src "none") := by
  have hsw' : src.dims.1 ≠ 0 := ne_of_gt hsw
  have hsh' : src.dims.2 ≠ 0 := ne_of_gt hsh
  refine ⟨?_, ?_, ?_, ?_, ?_⟩
  · refine ⟨min (L.width / src.dims.1) (L.height / src.dims.2) * src.dims.1,
      min (L.width / src.dims.1) (L.height / src.dims.2) * src.dims.2,
      ?_, by ring, ?_, ?_, ?_⟩
    · simp +decide [dynamicElementOps]
    · calc min (L.width / src.dims.1) (L.height / src.dims.2) * src.dims.1
          ≤ L.width / src.dims.1 * src.dims.1 :=
            mul_le_mul_of_nonneg_right (min_le_left _ _) hsw.le
        _ = L.width := div_mul_cancel₀ _ hsw'
    · calc min (L.width / src.dims.1) (L.height / src.dims.2) * src.dims.2
          ≤ L.height / src.dims.2 * src.dims.2 :=
            mul_le_mul_of_nonneg_right (min_le_right _ _) hsh.le
        _ = L.height := div_mul_cancel₀ _ hsh'
    · rcases min_choice (L.width / src.dims.1) (L.height / src.dims.2) with hc | hc
      · left
        rw [hc, div_mul_cancel₀ _ hsw']
      · right
        rw [hc, div_mul_cancel₀ _ hsh']
  · refine ⟨max (L.width / src.dims.1) (L.height / src.dims.2) * src.dims.1,
      max (L.width / src.dims.1) (L.height / src.dims.2) * src.dims.2,
      ?_, by ring, ?_, ?_, ?_⟩
    · simp +decide [dynamicElementOps]
    · calc L.width = L.width / src.dims.1 * src.dims.1 :=
          (div_mul_cancel₀ _ hsw').symm
        _ ≤ max (L.width / src.dims.1) (L.height / src.dims.2) * src.dims.1 :=
          mul_le_mul_of_nonneg_right (le_max_left _ _) hsw.le
    · calc L.height = L.height / src.dims.2 * src.dims.2 :=
          (div_mul_cancel₀ _ hsh').symm
        _ ≤ max (L.width / src.dims.1) (L.height / src.dims.2) * src.dims.2 :=
          mul_le_mul_of_nonneg_right (le_max_right _ _) hsh.le
    · rcases max_choice (L.width / src.dims.1) (L.height / src.dims.2) with hc | hc
      · left
        rw [hc, div_mul_cancel₀ _ hsw']
      · right
        rw [hc, div_mul_cancel₀ _ hsh']
  · simp +decide [dynamicElementOps]
  · simp +decide [dynamicElementOps]
  · simp +decide [dynamicElementOps]

/-- Witness for C8 at a concrete layout and source. -/
theorem C8_fit_strategies_witness :
    dynamicElementOps ⟨0, 0, 4, 3⟩
      (DynamicElement.withFit (DynSource.other 2 1 5) "fill") =
      [CanvasOp.drawImageRect 5 0 0 4 3] :=
  (C8_fit_strategies ⟨0, 0, 4, 3⟩ (DynSource.other 2 1 5)
    (by norm_num [DynSource.dims]) (by norm_num [DynSource.dims])).2.2.1

end Svga
